import Mathlib

/-!
Verification of the audio core and orchestration of the Waartaa Marathi news
TTS application (source files: `App.tsx`, `services/geminiService.ts`,
`types.ts`).  The audio utilities module (`utils/audioUtils.ts`, providing
`decode`, `decodeAudioData` and `pcmToWav`) is imported by the sources but its
file is not part of the repository snapshot, so those functions are modelled
from the design specification.  Byte sequences are `List Nat` with each
element standing for one byte (values `< 256`, as stored in a `Uint8Array`;
`toInt16` applies the `% 256` wrap a `Uint8Array` cell guarantees);
normalized audio samples are rationals, which represent the exact values the
program computes (every 16-bit integer divided by 32768 is an exact dyadic
float, so `Float` arithmetic introduces no rounding for these values).
-/

namespace Waartaa

/-- Little-endian encoding of a 16-bit value as two bytes, as written by
`DataView.setUint16(offset, v, true)`. -/
def le16 (n : Nat) : List Nat := [n % 256, n / 256 % 256]

/-- Little-endian encoding of a 32-bit value as four bytes, as written by
`DataView.setUint32(offset, v, true)`. -/
def le32 (n : Nat) : List Nat :=
  [n % 256, n / 256 % 256, n / 65536 % 256, n / 16777216 % 256]

/-- Read back a 16-bit little-endian field at byte offset `off`. -/
def readLE16 (bs : List Nat) (off : Nat) : Nat :=
  bs.getD off 0 + 256 * bs.getD (off + 1) 0

/-- Read back a 32-bit little-endian field at byte offset `off`. -/
def readLE32 (bs : List Nat) (off : Nat) : Nat :=
  bs.getD off 0 + 256 * bs.getD (off + 1) 0 + 65536 * bs.getD (off + 2) 0 +
    16777216 * bs.getD (off + 3) 0

/-- Modelled from the spec: the channel count fixed by the container encoder
`pcmToWav` of the missing `utils/audioUtils.ts` (spec section 4.3: "fixed
assumptions: `channelCount = 1`"). -/
def pcmNumChannels : Nat := 1

/-- Modelled from the spec: the bit depth fixed by the container encoder
`pcmToWav` of the missing `utils/audioUtils.ts` (spec section 4.3: "fixed
assumptions: `bitsPerSample = 16`"). -/
def pcmBitsPerSample : Nat := 16

/-- Modelled from the spec: the 44-byte canonical WAV header written by
`pcmToWav` of the missing `utils/audioUtils.ts` (spec section 4.3): RIFF tag,
total chunk size `36 + dataLen`, WAVE tag, fmt sub-chunk (size 16, PCM format
code 1, channel count, sample rate, byte rate, block align, bits per sample),
then the data tag and the data length, every multi-byte field little-endian. -/
def wavHeader (dataLen sampleRate : Nat) : List Nat :=
  [0x52, 0x49, 0x46, 0x46] ++ le32 (36 + dataLen) ++
  [0x57, 0x41, 0x56, 0x45] ++
  [0x66, 0x6d, 0x74, 0x20] ++ le32 16 ++
  le16 1 ++ le16 pcmNumChannels ++ le32 sampleRate ++
  le32 (sampleRate * pcmNumChannels * (pcmBitsPerSample / 8)) ++
  le16 (pcmNumChannels * (pcmBitsPerSample / 8)) ++ le16 pcmBitsPerSample ++
  [0x64, 0x61, 0x74, 0x61] ++ le32 dataLen

/-- Modelled from the spec: `pcmToWav` of the missing `utils/audioUtils.ts`
(spec section 4.3): the fixed-layout 44-byte header followed immediately by
the raw PCM bytes verbatim. -/
def pcmToWav (rawPcmBytes : List Nat) (sampleRate : Nat) : List Nat :=
  wavHeader rawPcmBytes.length sampleRate ++ rawPcmBytes

/-- Reassemble two bytes into a 16-bit little-endian signed integer, as an
`Int16Array` view over the byte buffer does. -/
def toInt16 (lo hi : Nat) : Int :=
  let u := lo % 256 + 256 * (hi % 256)
  if u < 32768 then (u : Int) else (u : Int) - 65536

/-- The tightly packed sequence of 16-bit little-endian signed samples held by
a byte sequence; a trailing odd byte is dropped, as an `Int16Array` view
drops it. -/
def int16Samples : List Nat → List Int
  | lo :: hi :: rest => toInt16 lo hi :: int16Samples rest
  | _ => []

/-- Normalization of one raw 16-bit sample: division by 32768, as the decoder
computes `dataInt16[i] / 32768.0`. -/
def normSample (x : Int) : ℚ := (x : ℚ) / 32768

/-- The decoded multi-channel audio buffer: the observable state of the
platform `AudioBuffer` the decoder fills (channel count, sample rate, frames
per channel, and the per-channel normalized sample data). -/
structure DecodedAudioBuffer where
  numberOfChannels : Nat
  sampleRate : Nat
  frameCount : Nat
  channelData : List (List ℚ)

/-- Modelled from the spec: `decodeAudioData` of the missing
`utils/audioUtils.ts` (spec section 4.2): the bytes are read as interleaved
16-bit little-endian signed samples, frame count is total sample count
divided by the channel count (flooring, trailing samples dropped),
interleaved sample `i` lands in channel `i % channelCount` at frame
`i / channelCount`, and each raw value is normalized by division by
32768. -/
def decodeAudioData (rawBytes : List Nat) (sampleRate channelCount : Nat) :
    DecodedAudioBuffer :=
  let samples := int16Samples rawBytes
  let frameCount := samples.length / channelCount
  { numberOfChannels := channelCount
    sampleRate := sampleRate
    frameCount := frameCount
    channelData := (List.range channelCount).map fun ch =>
      (List.range frameCount).map fun f =>
        normSample (samples.getD (f * channelCount + ch) 0) }

/-- The `duration` of a decoded buffer: frame count over sample rate, as the
platform reports it. -/
def DecodedAudioBuffer.duration (b : DecodedAudioBuffer) : ℚ :=
  (b.frameCount : ℚ) / (b.sampleRate : ℚ)

/-- The `inlineData` object of a response part (`@google/genai` shape used in
`geminiService.ts`); its `data` field, the base64 audio payload, may be
absent. -/
structure InlineData where
  data : Option String

/-- One part of a response candidate's content; `inlineData` may be absent. -/
structure ResponsePart where
  inlineData : Option InlineData

/-- The `content` of a response candidate; its `parts` list may be absent. -/
structure ResponseContent where
  parts : Option (List ResponsePart)

/-- One candidate of a model response; its `content` may be absent. -/
structure ResponseCandidate where
  content : Option ResponseContent

/-- The observable shape of a `generateContent` response as the two service
methods consume it: the `candidates` array (speech path) and the `text`
accessor (script path), each possibly absent. -/
structure GenerateContentResponse where
  candidates : Option (List ResponseCandidate)
  text : Option String

/-- The optional chain
`response.candidates?.[0]?.content?.parts?.[0]?.inlineData?.data` of
`GeminiService.generateSpeech` (`geminiService.ts` line 78): `none` when any
link of the chain is absent. -/
def extractBase64Audio (r : GenerateContentResponse) : Option String :=
  match r.candidates with
  | none => none
  | some cs =>
    match cs.head? with
    | none => none
    | some c =>
      match c.content with
      | none => none
      | some ct =>
        match ct.parts with
        | none => none
        | some ps =>
          match ps.head? with
          | none => none
          | some p =>
            match p.inlineData with
            | none => none
            | some d => d.data

/-- The message of the error thrown by `GeminiService.generateSpeech` when the
payload is missing (`geminiService.ts` line 80). -/
def noAudioDataMessage : String := "No audio data received from Gemini API."

/-- The payload-extraction step of `GeminiService.generateSpeech`
(`geminiService.ts` lines 78-81): JavaScript `if (!base64Audio) throw` treats
both an absent chain link and an empty string as missing, so those cases
produce the error; otherwise the payload is returned for decoding. -/
def generateSpeechResult (r : GenerateContentResponse) : Except String String :=
  match extractBase64Audio r with
  | none => Except.error noAudioDataMessage
  | some s => if s = "" then Except.error noAudioDataMessage else Except.ok s

/-- A response carries a usable audio payload: the optional chain yields a
non-empty (JavaScript-truthy) string. -/
def hasAudioPayload (r : GenerateContentResponse) : Prop :=
  match extractBase64Audio r with
  | none => False
  | some s => s ≠ ""

/-- Sample rate passed by `GeminiService.generateSpeech` to `decodeAudioData`
(`geminiService.ts` line 87). -/
def speechDecodeSampleRate : Nat := 24000

/-- Channel count passed by `GeminiService.generateSpeech` to
`decodeAudioData` (`geminiService.ts` line 87). -/
def speechDecodeChannelCount : Nat := 1

/-- Sample rate passed by `handleGenerate` in `App.tsx` (line 75) to
`pcmToWav` when encoding the same raw PCM payload. -/
def wavEncodeSampleRate : Nat := 24000

/-- The decode step of `GeminiService.generateSpeech`: the raw PCM payload is
decoded at the service's fixed sample rate and channel count. -/
def generateSpeechBuffer (audioData : List Nat) : DecodedAudioBuffer :=
  decodeAudioData audioData speechDecodeSampleRate speechDecodeChannelCount

/-- The encode step of `handleGenerate` in `App.tsx`: the same raw PCM payload
is wrapped by `pcmToWav` at the workflow's fixed sample rate. -/
def handleGenerateWavBytes (rawPcm : List Nat) : List Nat :=
  pcmToWav rawPcm wavEncodeSampleRate

/-- The application workflow status (`types.ts`). -/
inductive AppStatus where
  | IDLE
  | GENERATING_SCRIPT
  | GENERATING_AUDIO
  | PLAYING
  | ERROR
deriving DecidableEq

/-- The slice of `App` component state that the generation workflow reads and
writes (`App.tsx`): the input text, the generated script, the workflow
status, the user-facing error message, and whether a WAV blob is held. -/
structure AppState where
  inputText : String
  generatedScript : String
  status : AppStatus
  error : Option String
  hasAudioBlob : Bool
deriving DecidableEq

/-- The generic user-facing failure message set by the `catch` block of
`handleGenerate` (`App.tsx` line 82). -/
def genericErrorMessage : String := "काहीतरी चूक झाली. कृपया पुन्हा प्रयत्न करा."

/-- The `catch` block of `handleGenerate` (`App.tsx` lines 80-84): whatever
failure detail `errDetail` carries, it only logs it, sets the fixed generic
error message, and sets the status to `ERROR`. -/
def handleGenerateCatch (errDetail : String) (s : AppState) : AppState :=
  { s with error := some genericErrorMessage, status := AppStatus.ERROR }

/-- The enabling condition of the generate control (`App.tsx` line 244):
`disabled = status !== IDLE && status !== ERROR || !inputText.trim()`, so
generation can be invoked exactly in `IDLE` or `ERROR` with non-blank input. -/
def canStartGenerate (s : AppState) : Prop :=
  (s.status = AppStatus.IDLE ∨ s.status = AppStatus.ERROR) ∧
    s.inputText.trim ≠ ""

/-- The fixed fallback script returned by `GeminiService.generateNewsScript`
(`geminiService.ts` line 61). -/
def scriptFallbackMessage : String := "क्षमस्व, बातमी तयार करण्यात अडथळा आला."

/-- The return expression of `GeminiService.generateNewsScript`
(`geminiService.ts` line 61): `response.text || fallback`, where JavaScript
`||` falls back on an absent or empty (falsy) `text`. -/
def generateNewsScriptResult (r : GenerateContentResponse) : String :=
  match r.text with
  | none => scriptFallbackMessage
  | some t => if t = "" then scriptFallbackMessage else t

theorem wavHeader_length (dataLen sampleRate : Nat) :
    (wavHeader dataLen sampleRate).length = 44 := by
  simp [wavHeader, le16, le32]

theorem le32_readback (n : Nat) :
    n % 256 + 256 * (n / 256 % 256) + 65536 * (n / 65536 % 256) +
      16777216 * (n / 16777216 % 256) = n % 4294967296 := by
  omega

theorem pcmToWav_drop_header (d : List Nat) (sr : Nat) :
    (pcmToWav d sr).drop 44 = d := by
  have h : (pcmToWav d sr).drop 44 =
      (wavHeader d.length sr ++ d).drop (wavHeader d.length sr).length := by
    rw [wavHeader_length]; rfl
  rw [h, List.drop_left]

theorem pcmToWav_dataLen_field_mod (d : List Nat) (sr : Nat) :
    readLE32 (pcmToWav d sr) 40 = d.length % 4294967296 := by
  simp [pcmToWav, wavHeader, le16, le32, readLE32]
  omega

theorem pcmToWav_chunkSize_field_mod (d : List Nat) (sr : Nat) :
    readLE32 (pcmToWav d sr) 4 = (36 + d.length) % 4294967296 := by
  simp [pcmToWav, wavHeader, le16, le32, readLE32]
  omega

/-- C1: for every raw PCM byte sequence and positive sample rate, dropping the
44-byte header of the container blob produced by `pcmToWav` returns the PCM
bytes byte-identically, and the 32-bit little-endian data-length field at
offset 40 equals the PCM byte length (which fits the 32-bit field, as any
`Uint8Array` length does). -/
theorem wav_roundtrip_data_and_length (d : List Nat) (sr : Nat)
    (hsr : 0 < sr) (hd : d.length < 4294967296) :
    (pcmToWav d sr).drop 44 = d ∧ readLE32 (pcmToWav d sr) 40 = d.length := by
  refine ⟨pcmToWav_drop_header d sr, ?_⟩
  rw [pcmToWav_dataLen_field_mod, Nat.mod_eq_of_lt hd]

/-- Witness for C1 at the concrete input `d = [7, 8, 9]`, `sr = 24000`. -/
theorem wav_roundtrip_data_and_length_witness :
    (pcmToWav [7, 8, 9] 24000).drop 44 = [7, 8, 9] ∧
      readLE32 (pcmToWav [7, 8, 9] 24000) 40 = [7, 8, 9].length :=
  wav_roundtrip_data_and_length [7, 8, 9] 24000 (by decide) (by decide)

/-- C4: the container blob is exactly 44 header bytes followed by the data, so
its total length is `44 + len(d)`, and the 32-bit little-endian
total-chunk-size field at offset 4 equals `36 + len(d)`. -/
theorem wav_total_length_and_chunkSize (d : List Nat) (sr : Nat)
    (hsr : 0 < sr) (hd : 36 + d.length < 4294967296) :
    (pcmToWav d sr).length = 44 + d.length ∧
      readLE32 (pcmToWav d sr) 4 = 36 + d.length := by
  constructor
  · rw [pcmToWav, List.length_append, wavHeader_length]
  · rw [pcmToWav_chunkSize_field_mod, Nat.mod_eq_of_lt hd]

/-- Witness for C4 at the concrete input `d = [1, 2]`, `sr = 24000`. -/
theorem wav_total_length_and_chunkSize_witness :
    (pcmToWav [1, 2] 24000).length = 44 + [1, 2].length ∧
      readLE32 (pcmToWav [1, 2] 24000) 4 = 36 + [1, 2].length :=
  wav_total_length_and_chunkSize [1, 2] 24000 (by decide) (by decide)

theorem pcmToWav_sampleRate_field_mod (d : List Nat) (sr : Nat) :
    readLE32 (pcmToWav d sr) 24 = sr % 4294967296 := by
  simp [pcmToWav, wavHeader, le16, le32, readLE32]
  omega

theorem pcmToWav_numChannels_field (d : List Nat) (sr : Nat) :
    readLE16 (pcmToWav d sr) 22 = 1 := by
  simp [pcmToWav, wavHeader, le16, le32, readLE16, pcmNumChannels]

theorem pcmToWav_byteRate_field_mod (d : List Nat) (sr : Nat) :
    readLE32 (pcmToWav d sr) 28 =
      sr * pcmNumChannels * (pcmBitsPerSample / 8) % 4294967296 := by
  simp [pcmToWav, wavHeader, le16, le32, readLE32, pcmNumChannels,
    pcmBitsPerSample]
  omega

/-- C5: the byte-rate field (offset 28) of the header produced by `pcmToWav`
holds `sampleRate * channelCount * bitsPerSample/8` and the block-align field
(offset 32) holds `channelCount * bitsPerSample/8`, under the encoder's fixed
assumptions `channelCount = 1`, `bitsPerSample = 16`; the channel-count field
(offset 22) indeed holds 1 and the bits-per-sample field (offset 34) holds
16. -/
theorem wav_byteRate_blockAlign_fields (d : List Nat) (sr : Nat)
    (hsr : 0 < sr) (hbr : sr * 2 < 4294967296) :
    readLE32 (pcmToWav d sr) 28 = sr * pcmNumChannels * (pcmBitsPerSample / 8) ∧
      readLE16 (pcmToWav d sr) 32 = pcmNumChannels * (pcmBitsPerSample / 8) ∧
      readLE16 (pcmToWav d sr) 22 = 1 ∧
      readLE16 (pcmToWav d sr) 34 = 16 := by
  refine ⟨?_, ?_, ?_, ?_⟩
  · rw [pcmToWav_byteRate_field_mod]
    simp only [pcmNumChannels, pcmBitsPerSample]
    omega
  · simp [pcmToWav, wavHeader, le16, le32, readLE16, pcmNumChannels,
      pcmBitsPerSample]
  · simp [pcmToWav, wavHeader, le16, le32, readLE16, pcmNumChannels]
  · simp [pcmToWav, wavHeader, le16, le32, readLE16, pcmBitsPerSample]

/-- Witness for C5 at `sr = 24000`: the byte-rate field reads back 48000 and
the block-align field reads back 2. -/
theorem wav_byteRate_blockAlign_fields_witness :
    readLE32 (pcmToWav [0, 0] 24000) 28 = 48000 ∧
      readLE16 (pcmToWav [0, 0] 24000) 32 = 2 ∧
      readLE16 (pcmToWav [0, 0] 24000) 22 = 1 ∧
      readLE16 (pcmToWav [0, 0] 24000) 34 = 16 :=
  wav_byteRate_blockAlign_fields [0, 0] 24000 (by decide) (by decide)

theorem int16Samples_length :
    ∀ b : List Nat, (int16Samples b).length = b.length / 2
  | [] => by simp [int16Samples]
  | [_] => by simp [int16Samples]
  | _ :: _ :: rest => by
    simp [int16Samples, int16Samples_length rest]
    omega

theorem getD_map_range {α : Type} (n : Nat) (g : Nat → α) (d : α) (k : Nat)
    (hk : k < n) : ((List.range n).map g).getD k d = g k := by
  rw [List.getD_eq_getElem _ _ (by simpa using hk)]
  simp

theorem decode_frameCount (b : List Nat) (c sr : Nat) :
    (decodeAudioData b sr c).frameCount = b.length / (2 * c) := by
  simp [decodeAudioData, int16Samples_length, Nat.div_div_eq_div_mul]

theorem decode_channelData (b : List Nat) (c sr : Nat) :
    (decodeAudioData b sr c).channelData =
      (List.range c).map fun ch =>
        (List.range ((int16Samples b).length / c)).map fun f =>
          normSample ((int16Samples b).getD (f * c + ch) 0) := by
  simp [decodeAudioData]

theorem decode_channel_length (b : List Nat) (c sr : Nat) (ch : Nat)
    (hch : ch < c) :
    ((decodeAudioData b sr c).channelData.getD ch []).length =
      b.length / (2 * c) := by
  rw [decode_channelData, getD_map_range c _ _ ch hch]
  simp [int16Samples_length, Nat.div_div_eq_div_mul]

theorem decode_routing (b : List Nat) (c sr : Nat) (hc : 0 < c) (i : Nat)
    (hi : i < (decodeAudioData b sr c).frameCount * c) :
    ((decodeAudioData b sr c).channelData.getD (i % c) []).getD (i / c) 0 =
      normSample ((int16Samples b).getD i 0) := by
  have hch : i % c < c := Nat.mod_lt _ hc
  have hfc : (decodeAudioData b sr c).frameCount =
      (int16Samples b).length / c := by
    simp [decodeAudioData]
  have hf : i / c < (int16Samples b).length / c :=
    (Nat.div_lt_iff_lt_mul hc).mpr (hfc ▸ hi)
  rw [decode_channelData, getD_map_range c _ _ _ hch,
    getD_map_range _ _ _ _ hf]
  congr 2
  rw [Nat.mul_comm]
  exact Nat.div_add_mod i c

/-- C2: for every even-length byte sequence `b` and channel count `c ≥ 1`
dividing `len(b)/2`, `decodeAudioData` produces exactly `len(b)/(2*c)` frames,
each of the `c` channel arrays has that length, and interleaved sample `i` is
routed to channel `i % c` at frame `i / c` with its normalized value. -/
theorem decode_frames_and_routing (b : List Nat) (c sr : Nat)
    (hc : 1 ≤ c) (heven : b.length % 2 = 0) (hdvd : c ∣ b.length / 2) :
    (decodeAudioData b sr c).frameCount = b.length / (2 * c) ∧
      (∀ ch, ch < c →
        ((decodeAudioData b sr c).channelData.getD ch []).length =
          b.length / (2 * c)) ∧
      (∀ i, i < (decodeAudioData b sr c).frameCount * c →
        ((decodeAudioData b sr c).channelData.getD (i % c) []).getD (i / c) 0 =
          normSample ((int16Samples b).getD i 0)) :=
  ⟨decode_frameCount b c sr,
   fun ch hch => decode_channel_length b c sr ch hch,
   fun i hi => decode_routing b c sr (by omega) i hi⟩

/-- Witness for C2 at the concrete input `b = [0, 128, 255, 127]` (two
samples, `-32768` and `32767`), `c = 2`, `sr = 24000`: one frame per channel,
and both routed samples checked. -/
theorem decode_frames_and_routing_witness :
    (decodeAudioData [0, 128, 255, 127] 24000 2).frameCount =
        [0, 128, 255, 127].length / (2 * 2) ∧
      ((decodeAudioData [0, 128, 255, 127] 24000 2).channelData.getD
          (0 % 2) []).getD (0 / 2) 0 =
        normSample ((int16Samples [0, 128, 255, 127]).getD 0 0) ∧
      ((decodeAudioData [0, 128, 255, 127] 24000 2).channelData.getD
          (1 % 2) []).getD (1 / 2) 0 =
        normSample ((int16Samples [0, 128, 255, 127]).getD 1 0) := by
  have h := decode_frames_and_routing [0, 128, 255, 127] 2 24000
    (by decide) (by decide) (by decide)
  exact ⟨h.1, h.2.2 0 (by decide), h.2.2 1 (by decide)⟩

/-- C3: for every raw 16-bit signed integer `x` in `[-32768, 32767]`, the
decoder's normalized value is `x / 32768`, lies in `[-1, 1)`, and the
endpoints behave as stated: `-32768 ↦ -1` and `0 ↦ 0`.  (Rationals model the
exact `Float` results: each such quotient is an exact dyadic float.) -/
theorem normSample_value_and_range (x : Int)
    (hlo : -32768 ≤ x) (hhi : x ≤ 32767) :
    normSample x = (x : ℚ) / 32768 ∧ -1 ≤ normSample x ∧ normSample x < 1 ∧
      normSample (-32768) = -1 ∧ normSample 0 = 0 := by
  refine ⟨rfl, ?_, ?_, by norm_num [normSample], by norm_num [normSample]⟩
  · rw [normSample, le_div_iff₀ (by norm_num : (0:ℚ) < 32768)]
    have : (-32768 : ℚ) ≤ (x : ℚ) := by exact_mod_cast hlo
    linarith
  · rw [normSample, div_lt_one (by norm_num : (0:ℚ) < 32768)]
    have : (x : ℚ) ≤ 32767 := by exact_mod_cast hhi
    linarith

/-- Witness for C3 at the concrete input `x = -32768`. -/
theorem normSample_value_and_range_witness :
    normSample (-32768) = ((-32768 : Int) : ℚ) / 32768 ∧
      -1 ≤ normSample (-32768) ∧ normSample (-32768) < 1 ∧
      normSample (-32768) = -1 ∧ normSample 0 = 0 :=
  normSample_value_and_range (-32768) (by decide) (by decide)

/-- C6: decoding a zero-length byte sequence yields a buffer with 0 frames and
duration 0 for every positive sample rate and channel count; `decodeAudioData`
is a total function, so no error arises. -/
theorem decode_empty_zero_frames (sr c : Nat) (hsr : 0 < sr) (hc : 1 ≤ c) :
    (decodeAudioData [] sr c).frameCount = 0 ∧
      (decodeAudioData [] sr c).duration = 0 := by
  constructor
  · simp [decodeAudioData, int16Samples]
  · simp [DecodedAudioBuffer.duration, decodeAudioData, int16Samples]

/-- Witness for C6 at `sr = 24000`, `c = 1`. -/
theorem decode_empty_zero_frames_witness :
    (decodeAudioData [] 24000 1).frameCount = 0 ∧
      (decodeAudioData [] 24000 1).duration = 0 :=
  decode_empty_zero_frames 24000 1 (by decide) (by decide)

/-- C7: `generateSpeech` produces the error `"No audio data received from
Gemini API."` exactly when the response lacks a usable base64 audio payload
(any link of the optional chain absent, or the payload falsy); this is the
only error the extraction step signals — distinct from network failures,
which are thrown by the transport before this point — and in the error case
no speech result is produced, while a usable payload always yields one. -/
theorem generateSpeech_missing_payload_error (r : GenerateContentResponse) :
    (generateSpeechResult r = Except.error noAudioDataMessage ↔
      ¬ hasAudioPayload r) ∧
      ((generateSpeechResult r).isOk ↔ hasAudioPayload r) := by
  cases h : extractBase64Audio r with
  | none =>
    simp [generateSpeechResult, hasAudioPayload, h, Except.isOk, Except.toBool]
  | some s =>
    by_cases hs : s = "" <;>
      simp [generateSpeechResult, hasAudioPayload, h, hs, Except.isOk,
        Except.toBool]

/-- Witness for C7 at the concrete response with no candidates: extraction
fails with the explicit missing-payload error and no result is produced. -/
theorem generateSpeech_missing_payload_error_witness :
    (generateSpeechResult ⟨none, none⟩ = Except.error noAudioDataMessage ↔
      ¬ hasAudioPayload ⟨none, none⟩) ∧
      ((generateSpeechResult ⟨none, none⟩).isOk ↔
        hasAudioPayload ⟨none, none⟩) :=
  generateSpeech_missing_payload_error ⟨none, none⟩

/-- C8: for every raw PCM payload, the decode step of `generateSpeech` and
the encode step of `handleGenerate` use the same sample rate (24000 Hz) and
the same channel count (mono): the decoded buffer's rate and channel count
equal the sample-rate field (offset 24) and channel-count field (offset 22)
of the WAV header wrapped around the same payload. -/
theorem decode_encode_rate_channels_match (pcm : List Nat) :
    (generateSpeechBuffer pcm).sampleRate =
        readLE32 (handleGenerateWavBytes pcm) 24 ∧
      (generateSpeechBuffer pcm).numberOfChannels =
        readLE16 (handleGenerateWavBytes pcm) 22 ∧
      speechDecodeSampleRate = wavEncodeSampleRate ∧
      speechDecodeChannelCount = pcmNumChannels := by
  refine ⟨?_, ?_, rfl, rfl⟩
  · have hfield : readLE32 (handleGenerateWavBytes pcm) 24 =
        wavEncodeSampleRate % 4294967296 :=
      pcmToWav_sampleRate_field_mod pcm wavEncodeSampleRate
    have hrate : (generateSpeechBuffer pcm).sampleRate =
        speechDecodeSampleRate := rfl
    rw [hrate, hfield]
    norm_num [speechDecodeSampleRate, wavEncodeSampleRate]
  · have hfield : readLE16 (handleGenerateWavBytes pcm) 22 = 1 :=
      pcmToWav_numChannels_field pcm wavEncodeSampleRate
    have hch : (generateSpeechBuffer pcm).numberOfChannels =
        speechDecodeChannelCount := rfl
    rw [hch, hfield]
    norm_num [speechDecodeChannelCount]

/-- C9 counterexample: at the concrete failing generation below, the `catch`
block of `handleGenerate` leaves the workflow in the `ERROR` status, not the
`IDLE` status, so the claim that the workflow is reset to an idle state is
false on the code. -/
theorem handleGenerateCatch_not_idle :
    (handleGenerateCatch "network failure"
        ⟨"abc news", "", AppStatus.GENERATING_SCRIPT, none, false⟩).status ≠
      AppStatus.IDLE := by
  simp [handleGenerateCatch]

/-- C9 (amended): for every failure from either remote generation call, the
`catch` block of `handleGenerate` surfaces the single generic user-facing
message with no structured detail (its result is independent of the failure
detail) and moves the workflow to the retryable `ERROR` state: the generate
control is enabled there exactly as it would be in the `IDLE` state with the
same input, so generation can be re-invoked by the user. -/
theorem handleGenerateCatch_generic_and_retryable (e : String) (s : AppState) :
    (handleGenerateCatch e s).error = some genericErrorMessage ∧
      (handleGenerateCatch e s).status = AppStatus.ERROR ∧
      (canStartGenerate (handleGenerateCatch e s) ↔
        canStartGenerate { s with status := AppStatus.IDLE }) ∧
      handleGenerateCatch e s = handleGenerateCatch "some other failure" s := by
  refine ⟨rfl, rfl, ?_, rfl⟩
  simp [canStartGenerate, handleGenerateCatch]

/-- Witness for C9 (amended) at a concrete failure and state. -/
theorem handleGenerateCatch_generic_and_retryable_witness :
    (handleGenerateCatch "boom"
          ⟨"abc news", "", AppStatus.PLAYING, none, false⟩).error =
        some genericErrorMessage ∧
      (handleGenerateCatch "boom"
          ⟨"abc news", "", AppStatus.PLAYING, none, false⟩).status =
        AppStatus.ERROR ∧
      (canStartGenerate (handleGenerateCatch "boom"
          ⟨"abc news", "", AppStatus.PLAYING, none, false⟩) ↔
        canStartGenerate
          ⟨"abc news", "", AppStatus.IDLE, none, false⟩) ∧
      handleGenerateCatch "boom"
          ⟨"abc news", "", AppStatus.PLAYING, none, false⟩ =
        handleGenerateCatch "some other failure"
          ⟨"abc news", "", AppStatus.PLAYING, none, false⟩ :=
  handleGenerateCatch_generic_and_retryable "boom"
    ⟨"abc news", "", AppStatus.PLAYING, none, false⟩

/-- C10: when the script-generation response carries no text (absent or
empty, the JavaScript-falsy cases of `response.text || fallback`),
`generateNewsScript` returns the fixed fallback string as an ordinary
successful result — the function's result type is a plain string, so an empty
model response is never propagated as a failure. -/
theorem generateNewsScript_empty_fallback (r : GenerateContentResponse)
    (h : r.text = none ∨ r.text = some "") :
    generateNewsScriptResult r = scriptFallbackMessage := by
  rcases h with h | h <;> simp [generateNewsScriptResult, h]

/-- Witness for C10 at the concrete response with absent text. -/
theorem generateNewsScript_empty_fallback_witness :
    generateNewsScriptResult ⟨none, none⟩ = scriptFallbackMessage :=
  generateNewsScript_empty_fallback ⟨none, none⟩ (Or.inl rfl)

end Waartaa
